import Mathlib

/-!
Verification of the atis-lerm weather-fusion and report engine.

Shallow embedding of the core functions of the repository:
* src/functions/weatherReport.js — the WeatherReportData record and its
  null-skipping mergeData routine;
* src/functions/atis.js — the ATIS identifier rotation, getVRBWind and
  determineActiveRunway;
* src/functions/windy.js — uvToWind and estimateCloudAltitude;
* src/functions/robleEMA.js — directionToDegrees, the wind branch of
  parseCleanConditions, and getATISTimeFromLocalTime.

JavaScript numbers are modelled as rationals where the code only performs
ring operations, comparisons and rounding, and as reals where square roots
and arctangents appear.  JavaScript null is an explicit constructor of the
value type (or Option none for optional inputs).
-/

namespace AtisLerm

/-- JavaScript Math.round: rounds half toward positive infinity. -/
def jsRound (x : ℚ) : ℤ := ⌊x + 1/2⌋

/-- JavaScript String(n).padStart(3, -zero-): decimal rendering of the
number padded on the left with zeros to length 3. -/
def padStart3 (n : ℤ) : String :=
  let s := toString n
  if s.length < 3 then String.mk (List.replicate (3 - s.length) '0') ++ s else s

/-- Two-digit zero padding of a natural number, as String(n).padStart(2, zero). -/
def pad2 (n : ℕ) : String :=
  let s := toString n
  if s.length < 2 then String.mk (List.replicate (2 - s.length) '0') ++ s else s

/-! ## The canonical snapshot (src/functions/weatherReport.js) -/

/-- A JavaScript value as it appears in the flat source records merged into
WeatherReportData: null, a number, a string, a boolean, or an array of
strings (the cloud-layer lists).  JSVal.nullv is JavaScript null. -/
inductive JSVal where
  | nullv : JSVal
  | num (q : ℚ) : JSVal
  | str (s : String) : JSVal
  | bool (b : Bool) : JSVal
  | strList (l : List String) : JSVal
deriving DecidableEq, Repr

/-- The WeatherReportData class: exactly the sixteen declared fields, each
holding a JavaScript value (initially null). -/
structure WeatherReportData where
  wind_direction : JSVal
  wind_speed : JSVal
  gust_direction : JSVal
  gust_speed : JSVal
  visibility : JSVal
  temperature : JSVal
  dew_point : JSVal
  qnh : JSVal
  prec : JSVal
  observationTime : JSVal
  originalSkyDescription : JSVal
  sky : JSVal
  phenomenon : JSVal
  wind_vrb : JSVal
  clouds : JSVal
  clouds_short : JSVal
deriving DecidableEq, Repr

/-- The sixteen field names, as an enumeration. -/
inductive WField where
  | wind_direction | wind_speed | gust_direction | gust_speed
  | visibility | temperature | dew_point | qnh | prec
  | observationTime | originalSkyDescription | sky | phenomenon
  | wind_vrb | clouds | clouds_short
deriving DecidableEq, Repr, Fintype

/-- The property name of each declared field. -/
def keyOf : WField → String
  | WField.wind_direction => "wind_direction"
  | WField.wind_speed => "wind_speed"
  | WField.gust_direction => "gust_direction"
  | WField.gust_speed => "gust_speed"
  | WField.visibility => "visibility"
  | WField.temperature => "temperature"
  | WField.dew_point => "dew_point"
  | WField.qnh => "qnh"
  | WField.prec => "prec"
  | WField.observationTime => "observationTime"
  | WField.originalSkyDescription => "originalSkyDescription"
  | WField.sky => "sky"
  | WField.phenomenon => "phenomenon"
  | WField.wind_vrb => "wind_vrb"
  | WField.clouds => "clouds"
  | WField.clouds_short => "clouds_short"

/-- Field projection. -/
def getF (w : WeatherReportData) : WField → JSVal
  | WField.wind_direction => w.wind_direction
  | WField.wind_speed => w.wind_speed
  | WField.gust_direction => w.gust_direction
  | WField.gust_speed => w.gust_speed
  | WField.visibility => w.visibility
  | WField.temperature => w.temperature
  | WField.dew_point => w.dew_point
  | WField.qnh => w.qnh
  | WField.prec => w.prec
  | WField.observationTime => w.observationTime
  | WField.originalSkyDescription => w.originalSkyDescription
  | WField.sky => w.sky
  | WField.phenomenon => w.phenomenon
  | WField.wind_vrb => w.wind_vrb
  | WField.clouds => w.clouds
  | WField.clouds_short => w.clouds_short

/-- Field assignment (the dynamic write this[key] = v, for a declared key). -/
def setF (w : WeatherReportData) : WField → JSVal → WeatherReportData
  | WField.wind_direction, v => { w with wind_direction := v }
  | WField.wind_speed, v => { w with wind_speed := v }
  | WField.gust_direction, v => { w with gust_direction := v }
  | WField.gust_speed, v => { w with gust_speed := v }
  | WField.visibility, v => { w with visibility := v }
  | WField.temperature, v => { w with temperature := v }
  | WField.dew_point, v => { w with dew_point := v }
  | WField.qnh, v => { w with qnh := v }
  | WField.prec, v => { w with prec := v }
  | WField.observationTime, v => { w with observationTime := v }
  | WField.originalSkyDescription, v => { w with originalSkyDescription := v }
  | WField.sky, v => { w with sky := v }
  | WField.phenomenon, v => { w with phenomenon := v }
  | WField.wind_vrb, v => { w with wind_vrb := v }
  | WField.clouds, v => { w with clouds := v }
  | WField.clouds_short, v => { w with clouds_short := v }

/-- All sixteen fields. -/
def declaredFields : List WField :=
  [WField.wind_direction, WField.wind_speed, WField.gust_direction,
   WField.gust_speed, WField.visibility, WField.temperature,
   WField.dew_point, WField.qnh, WField.prec, WField.observationTime,
   WField.originalSkyDescription, WField.sky, WField.phenomenon,
   WField.wind_vrb, WField.clouds, WField.clouds_short]

/-- The hasOwnProperty check of mergeData: a source key matches at most one
declared field. -/
def parseKey (k : String) : Option WField :=
  declaredFields.find? (fun f => keyOf f == k)

/-- One iteration of the for-in loop of mergeData: if the key is declared on
the class and the source value is not null, assign it; otherwise skip. -/
def mergeStep (w : WeatherReportData) (p : String × JSVal) : WeatherReportData :=
  match parseKey p.1 with
  | some f => if p.2 ≠ JSVal.nullv then setF w f p.2 else w
  | none => w

/-- WeatherReportData.mergeData over a plain source object, represented as
its (key, value) pairs in enumeration order. -/
def mergeData (w : WeatherReportData) (sourceObject : List (String × JSVal)) :
    WeatherReportData :=
  sourceObject.foldl mergeStep w

/-- mergeData including its top-level guard: a null (or non-object) source,
represented by none, is skipped with a warning and leaves the instance
unchanged. -/
def mergeDataVal (w : WeatherReportData)
    (sourceObject : Option (List (String × JSVal))) : WeatherReportData :=
  match sourceObject with
  | some l => mergeData w l
  | none => w

/-- new WeatherReportData(): every field initialized to null. -/
def emptyReport : WeatherReportData :=
  { wind_direction := JSVal.nullv, wind_speed := JSVal.nullv
    gust_direction := JSVal.nullv, gust_speed := JSVal.nullv
    visibility := JSVal.nullv, temperature := JSVal.nullv
    dew_point := JSVal.nullv, qnh := JSVal.nullv, prec := JSVal.nullv
    observationTime := JSVal.nullv, originalSkyDescription := JSVal.nullv
    sky := JSVal.nullv, phenomenon := JSVal.nullv, wind_vrb := JSVal.nullv
    clouds := JSVal.nullv, clouds_short := JSVal.nullv }

/-- The last non-null value a source object supplies for a given key, if
any: exactly the occurrences the for-in loop of mergeData would copy. -/
def lastPresent (sourceObject : List (String × JSVal)) (key : String) :
    Option JSVal :=
  sourceObject.foldl
    (fun acc p => if p.1 = key ∧ p.2 ≠ JSVal.nullv then some p.2 else acc) none

lemma getF_setF (w : WeatherReportData) (f g : WField) (v : JSVal) :
    getF (setF w f v) g = if f = g then v else getF w g := by
  cases f <;> cases g <;> simp [setF, getF]

lemma parseKey_keyOf (f : WField) : parseKey (keyOf f) = some f := by
  cases f <;> rfl

lemma keyOf_injective : Function.Injective keyOf := by
  intro f g h
  cases f <;> cases g <;> first | rfl | simp [keyOf] at h

lemma parseKey_eq_some (k : String) (f : WField) (h : parseKey k = some f) :
    keyOf f = k := by
  have := List.find?_some h
  simpa using this

lemma getF_mergeStep (w : WeatherReportData) (k : String) (v : JSVal)
    (g : WField) :
    getF (mergeStep w (k, v)) g =
      if k = keyOf g ∧ v ≠ JSVal.nullv then v else getF w g := by
  unfold mergeStep
  cases hp : parseKey k with
  | none =>
      have hne : ¬ (k = keyOf g ∧ v ≠ JSVal.nullv) := by
        rintro ⟨h1, -⟩
        rw [h1, parseKey_keyOf] at hp
        exact Option.noConfusion hp
      simp [hne]
  | some f =>
      have hk : keyOf f = k := parseKey_eq_some k f hp
      by_cases hv : v = JSVal.nullv
      · simp [hv]
      · by_cases hfg : f = g
        · subst hfg
          simp [hv, getF_setF, hk.symm]
        · have hkg : k ≠ keyOf g := by
            rw [← hk]
            exact fun hc => hfg (keyOf_injective hc)
          simp [hv, getF_setF, hfg, hkg]

lemma lastPresent_foldl (tl : List (String × JSVal)) (key : String)
    (acc : Option JSVal) :
    tl.foldl
        (fun acc p => if p.1 = key ∧ p.2 ≠ JSVal.nullv then some p.2 else acc)
        acc =
      match lastPresent tl key with
      | some v => some v
      | none => acc := by
  induction tl generalizing acc with
  | nil => simp [lastPresent]
  | cons p tl ih =>
      show tl.foldl _ (if p.1 = key ∧ p.2 ≠ JSVal.nullv then some p.2 else acc) = _
      rw [ih]
      have hcons : lastPresent (p :: tl) key =
          match lastPresent tl key with
          | some v => some v
          | none => if p.1 = key ∧ p.2 ≠ JSVal.nullv then some p.2 else none := by
        show tl.foldl _ (if p.1 = key ∧ p.2 ≠ JSVal.nullv then some p.2 else none) = _
        rw [ih]
      rw [hcons]
      cases lastPresent tl key <;> by_cases h : p.1 = key ∧ p.2 ≠ JSVal.nullv <;>
        simp [h]

/-- The core law of mergeData: each field of the result is the last
non-null value the source supplies for the key of that field, and the old value
when the source supplies none. -/
lemma getF_mergeData (w : WeatherReportData) (src : List (String × JSVal))
    (g : WField) :
    getF (mergeData w src) g = (lastPresent src (keyOf g)).getD (getF w g) := by
  induction src generalizing w with
  | nil => simp [mergeData, lastPresent]
  | cons p tl ih =>
      obtain ⟨k, v⟩ := p
      show getF (mergeData (mergeStep w (k, v)) tl) g = _
      rw [ih]
      have hcons : lastPresent ((k, v) :: tl) (keyOf g) =
          match lastPresent tl (keyOf g) with
          | some v' => some v'
          | none =>
              if k = keyOf g ∧ v ≠ JSVal.nullv then some v else none := by
        show tl.foldl _ (if (k, v).1 = keyOf g ∧ (k, v).2 ≠ JSVal.nullv
            then some (k, v).2 else none) = _
        rw [lastPresent_foldl]
      rw [hcons, getF_mergeStep]
      cases lastPresent tl (keyOf g) with
      | some v' => simp
      | none => by_cases h : k = keyOf g ∧ v ≠ JSVal.nullv <;> simp [h]

lemma mergeStep_skip (w : WeatherReportData) (p : String × JSVal)
    (h : parseKey p.1 = none ∨ p.2 = JSVal.nullv) : mergeStep w p = w := by
  unfold mergeStep
  rcases h with h | h
  · rw [h]
  · cases hp : parseKey p.1 with
    | none => rfl
    | some f => simp [h]

lemma mergeData_skip_all (w : WeatherReportData)
    (src : List (String × JSVal))
    (h : ∀ p ∈ src, parseKey p.1 = none ∨ p.2 = JSVal.nullv) :
    mergeData w src = w := by
  induction src generalizing w with
  | nil => rfl
  | cons p tl ih =>
      show mergeData (mergeStep w p) tl = w
      rw [mergeStep_skip w p (h p (List.mem_cons_self p tl))]
      exact ih w fun q hq => h q (List.mem_cons_of_mem p hq)

/-! ## ATIS identifier rotation (src/functions/atis.js, lines 8-50) -/

/-- The 26 broadcast letter codes. -/
def ATIS_IDENTIFIERS : List String :=
  ["ALPHA", "BRAVO", "CHARLIE", "DELTA", "ECHO", "FOXTROT", "GOLF", "HOTEL",
   "INDIA", "JULIET", "KILO", "LIMA", "MIKE", "NOVEMBER", "OSCAR", "PAPA",
   "QUEBEC", "ROMEO", "SIERRA", "TANGO", "UNIFORM", "VICTOR", "WHISKEY",
   "XRAY", "YANKEE", "ZULU"]

/-- The module-scoped mutable rotation state: the current identifier index
and the last broadcast observation time (null before the first run). -/
structure AtisState where
  currentIdentifierIndex : ℕ
  lastBroadcastTime : Option String
deriving DecidableEq, Repr

/-- Process start: index positioned at the last code (ZULU) with no
broadcast time recorded, so the first advance wraps to ALPHA. -/
def initialAtisState : AtisState := ⟨25, none⟩

/-- The identifier-management head of formatReportForATIS: if the new
snapshot observationTime differs from the last broadcast time, advance
the index by one modulo 26 (getNextIdentifier) and record the new time;
otherwise keep the current identifier and state.  Returns the updated
state together with the identifier used for this report. -/
def formatReportIdentifier (s : AtisState) (observationTime : Option String) :
    AtisState × String :=
  if observationTime ≠ s.lastBroadcastTime then
    let i := (s.currentIdentifierIndex + 1) % 26
    (⟨i, observationTime⟩, ATIS_IDENTIFIERS.getD i "")
  else
    (s, ATIS_IDENTIFIERS.getD s.currentIdentifierIndex "")

/-! ## Wind variability (src/functions/atis.js, getVRBWind) -/

/-- getVRBWind: formats wind variability between two directions using the
shortest angular difference.  Inputs are the two raw directions (none for
JavaScript null or undefined). -/
def getVRBWind (windDir1 windDir2 : Option ℚ) : String :=
  match windDir1, windDir2 with
  | some w1, some w2 =>
      let dir1 := jsRound w1
      let dir2 := jsRound w2
      if dir1 = dir2 then ""
      else
        let diff := |dir1 - dir2|
        let shortestDiff := min diff (360 - diff)
        let p :=
          if diff = shortestDiff then (min dir1 dir2, max dir1 dir2)
          else (max dir1 dir2, min dir1 dir2)
        "VRB " ++ padStart3 p.1 ++ "/" ++ padStart3 p.2
  | _, _ => ""

/-! ## Runway selection (src/functions/atis.js, determineActiveRunway) -/

/-- The smallest angular difference between two headings (0-180). -/
def getAngularDifference (angle1 angle2 : ℤ) : ℤ :=
  min |angle1 - angle2| (360 - |angle1 - angle2|)

/-- determineActiveRunway: picks runway 01 or 19, whichever heading has the
smaller angular difference to the wind (ties pick 01).  The JavaScript
remainder operator truncates toward zero, which Int.tmod matches. -/
def determineActiveRunway (windDirectionDegrees : ℤ) : String :=
  let windDir := Int.tmod windDirectionDegrees 360
  let diffRwy01 := getAngularDifference windDir 10
  let diffRwy19 := getAngularDifference windDir 190
  if diffRwy01 ≤ diffRwy19 then "01" else "19"

/-! ## Cloud altitude estimation (src/functions/windy.js, estimateCloudAltitude) -/

/-- estimateCloudAltitude: for the three fixed layer reference pressures
(low 800, mid 600, high 400 hPa), 0 when the layer pressure is at or above
the surface pressure, otherwise 27 ft per hPa of pressure difference
rounded to the nearest 100 ft. -/
def estimateCloudAltitude (qnh : ℚ) : ℤ × ℤ × ℤ :=
  let calculateAltitude := fun (layerPressure : ℚ) =>
    if qnh ≤ layerPressure then (0 : ℤ)
    else jsRound ((qnh - layerPressure) * 27 / 100) * 100
  (calculateAltitude 800, calculateAltitude 600, calculateAltitude 400)

/-- The altitude formula of the spec, stated as written there: altitude =
max(0, (qnh − referencePressure) · 27) feet, rounded to the nearest 100. -/
def specAltitude (qnh layerPressure : ℚ) : ℤ :=
  jsRound (max 0 ((qnh - layerPressure) * 27) / 100) * 100

/-! ## Local-station normalizer (src/functions/robleEMA.js) -/

/-- JavaScript String.prototype.toUpperCase over the ASCII range, as a
structural map over the character list. -/
def jsToUpper (s : String) : String := String.mk (s.data.map Char.toUpper)

/-- Whitespace recognized by JavaScript String.prototype.trim (the
characters occurring in this data). -/
def isSpaceChar (c : Char) : Bool := c = ' ' || c = '\t' || c = '\n' || c = '\r'

/-- JavaScript String.prototype.trim: drop whitespace from both ends. -/
def jsTrim (s : String) : String :=
  String.mk (((s.data.dropWhile isSpaceChar).reverse.dropWhile isSpaceChar).reverse)

/-- JavaScript String.replace with a string pattern removes only the first
occurrence; this is replace of a dot by the empty string, on the character
list. -/
def removeFirstDot : List Char → List Char
  | [] => []
  | c :: cs => if c = '.' then cs else c :: removeFirstDot cs

/-- The compass-text table of directionToDegrees, in source order. -/
def directionTable : List (String × ℚ) :=
  [("N", 360), ("E", 90), ("S", 180), ("O", 270),
   ("NE", 45), ("SE", 135), ("SO", 225), ("NO", 315),
   ("NNE", 22), ("ENE", 67), ("ESE", 112), ("SSE", 157),
   ("SSO", 202), ("OSO", 247), ("ONO", 292), ("NNO", 337),
   ("VRB", 0)]

/-- directionToDegrees: uppercase, trim, drop the first dot, look the text
up in the table, and default to 0 degrees when the text is unknown. -/
def directionToDegrees (direction : String) : ℚ :=
  let cleanedDirection := String.mk (removeFirstDot ((jsTrim (jsToUpper direction)).data))
  match directionTable.find? (fun p => p.1 == cleanedDirection) with
  | some p => p.2
  | none => 0

/-- convertKmhToKnots: 0 for negative input, otherwise km/h times 0.539957
rounded to the nearest knot. -/
def convertKmhToKnots (speedKmh : ℚ) : ℤ :=
  if speedKmh < 0 then 0
  else jsRound (speedKmh * (539957 / 1000000))

/-- The three wind-related outputs of parseCleanConditions. -/
structure LermWindFields where
  wind_speed : Option ℤ
  wind_direction_text : Option String
  wind_direction : Option ℚ
deriving DecidableEq, Repr

/-- The wind branch of parseCleanConditions (lines 74-88): given the result
of matching the wind pattern (captured speed in km/h and compass text, or
none when the pattern did not match), produce the wind fields.  A failed
match leaves every wind field null; a successful match always stores a
numeric direction via directionToDegrees. -/
def parseWindSection (windMatch : Option (ℚ × String)) : LermWindFields :=
  match windMatch with
  | some m =>
      let direction_text := jsToUpper m.2
      { wind_speed := some (convertKmhToKnots m.1)
        wind_direction_text := some direction_text
        wind_direction := some (directionToDegrees direction_text) }
  | none =>
      { wind_speed := none, wind_direction_text := none, wind_direction := none }

/-! ## Civil-time conversion (src/functions/robleEMA.js, getATISTimeFromLocalTime)

The function is embedded for the configuration in which it runs: the host
clock of the Cloudflare Workers runtime is UTC and the target zone is
Europe/Madrid, for wall-clock instants inside the year 2025.  A civil
date-time is encoded as minutes since 2025-01-01 00:00.

Operationally the source does the following (both revisions in the file
reduce to the same computation):
1. new Date(year, month-1, day, h, m, s) parses the input components in the
   host zone, which is UTC, producing the instant t equal to the input
   civil minutes read as UTC;
2. an Intl.DateTimeFormat with timeZone Europe/Madrid formats t, producing
   the civil components t + offset(t), where offset(t) is the Madrid UTC
   offset in force at the instant t;
3. new Date(thatString) parses those components in the host zone (UTC
   again), and getUTCHours/getUTCMinutes of the result are printed.
The printed time is therefore the civil components of t + offset(t). -/

/-- Minute of 2025-03-30 01:00 UTC, the instant Europe/Madrid switches to UTC+2
(last Sunday of March, 02:00 local changing to 03:00), in minutes since
2025-01-01 00:00. -/
def springTransitionUTC : ℕ := 126780

/-- Minute of 2025-10-26 01:00 UTC, the instant Europe/Madrid switches back to UTC+1
(last Sunday of October, 03:00 local changing to 02:00). -/
def fallTransitionUTC : ℕ := 429180

/-- The Europe/Madrid UTC offset in minutes at a given UTC instant of 2025,
as resolved by the Intl time-zone database. -/
def madridOffset2025 (t : ℕ) : ℕ :=
  if springTransitionUTC ≤ t ∧ t < fallTransitionUTC then 120 else 60

/-- Zero-padded HH:MM rendering with the trailing zone marker, of a time
given in minutes. -/
def hhmmZ (t : ℕ) : String :=
  pad2 (t % 1440 / 60) ++ ":" ++ pad2 (t % 60) ++ "Z"

/-- getATISTimeFromLocalTime for Europe/Madrid on a UTC-clock host in 2025:
the input civil minutes c are parsed as the UTC instant c, formatted into
Madrid civil time c + offset(c), and that string is reparsed as UTC and
printed. -/
def getATISTimeFromLocalTime2025 (c : ℕ) : String :=
  hhmmZ (c + madridOffset2025 c)

/-- Modelled from the spec: the spring transition as seen on the local wall
clock, 2025-03-30 02:00 local time (minutes since 2025-01-01 00:00 local). -/
def springTransitionLocal : ℕ := 126840

/-- Modelled from the spec: the fall transition on the local wall clock,
2025-10-26 03:00 local time. -/
def fallTransitionLocal : ℕ := 429300

/-- Modelled from the spec: the Madrid UTC offset in force at a given local
wall-clock time of 2025 (the nonexistent spring hour resolved forward). -/
def madridOffsetOfLocal2025 (c : ℕ) : ℕ :=
  if springTransitionLocal ≤ c ∧ c < fallTransitionLocal then 120 else 60

/-- Modelled from the spec: the correct local-to-UTC conversion the
contract of section 4.4 demands, subtracting the observed offset at the
given local time. -/
def specLocalToUTC2025 (c : ℕ) : ℕ := c - madridOffsetOfLocal2025 c

/-! ## Wind vector conversion (src/functions/windy.js, uvToWind) -/

/-- JavaScript Math.atan2(y, x): the angle of the point (x, y), in
(-pi, pi], by the standard quadrant case analysis over arctangent. -/
noncomputable def jsAtan2 (y x : ℝ) : ℝ :=
  if 0 < x then Real.arctan (y / x)
  else if x < 0 then
    (if 0 ≤ y then Real.arctan (y / x) + Real.pi
     else Real.arctan (y / x) - Real.pi)
  else if 0 < y then Real.pi / 2
  else if y < 0 then -(Real.pi / 2)
  else 0

/-- Truncation toward zero, as JavaScript division-based remainders use. -/
noncomputable def truncR (x : ℝ) : ℤ := if 0 ≤ x then ⌊x⌋ else ⌈x⌉

/-- The JavaScript remainder operator on numbers: x - y * trunc(x / y). -/
noncomputable def jsFmod (x y : ℝ) : ℝ := x - y * (truncR (x / y) : ℝ)

/-- JavaScript Math.round over the reals. -/
noncomputable def jsRoundR (x : ℝ) : ℤ := ⌊x + 1/2⌋

/-- JavaScript Number.prototype.toFixed(1) followed by parseFloat: round to
one decimal place. -/
noncomputable def toFixed1 (x : ℝ) : ℝ := (⌊x * 10 + 1/2⌋ : ℝ) / 10

/-- Meters per second to knots conversion factor. -/
def MPS_TO_KNOTS : ℝ := 1.94384

/-- uvToWind of src/functions/windy.js for non-null components: speed is
the vector norm in knots kept to one decimal, direction is the compass
bearing the wind blows from, rounded to the nearest 10 degrees.  (For a
null component the source returns a null pair; that branch carries no
numeric content and is omitted here by taking real arguments.) -/
noncomputable def uvToWind (u v : ℝ) : ℝ × ℤ :=
  let speedMps := Real.sqrt (u * u + v * v)
  let speedKnots := speedMps * MPS_TO_KNOTS
  let directionRad := jsAtan2 u v
  let directionDeg0 := directionRad * (180 / Real.pi)
  let directionDeg := jsFmod (directionDeg0 + 360) 360
  let directionFrom := jsFmod (directionDeg + 180) 360
  let reportDirection := jsRoundR (directionFrom / 10) * 10
  (toFixed1 speedKnots, reportDirection)

/-! ## Theorems for the claims -/

/-- C1: applying mergeData copies a field exactly when the source holds a
non-null value for it (the last such value), an absent or null value never
overwrites a previously set value, and fusing the three example partial
snapshots in precedence order (forecast, then agency, then station) yields
wind_speed 8 and temperature 22. -/
theorem c1_fusion_precedence :
    (∀ (w : WeatherReportData) (src : List (String × JSVal)) (f : WField),
        getF (mergeData w src) f = (lastPresent src (keyOf f)).getD (getF w f))
    ∧ (∀ (w : WeatherReportData) (k : String),
        mergeData w [(k, JSVal.nullv)] = w)
    ∧ (mergeData (mergeData (mergeData emptyReport
          [("wind_speed", JSVal.num 5)])
          [("wind_speed", JSVal.num 8), ("temperature", JSVal.num 20)])
          [("temperature", JSVal.num 22)]).wind_speed = JSVal.num 8
    ∧ (mergeData (mergeData (mergeData emptyReport
          [("wind_speed", JSVal.num 5)])
          [("wind_speed", JSVal.num 8), ("temperature", JSVal.num 20)])
          [("temperature", JSVal.num 22)]).temperature = JSVal.num 22 := by
  refine ⟨getF_mergeData, ?_, ?_, ?_⟩
  · intro w k
    apply mergeData_skip_all
    intro p hp
    simp only [List.mem_singleton] at hp
    rw [hp]
    exact Or.inr rfl
  · decide
  · decide

/-- C7: merging an all-absent partial snapshot — a null source, an empty
record, or a record whose values are all null, such as a failed provider
produces — leaves every field of the snapshot unchanged, and an error-only
record contributes nothing. -/
theorem c7_absent_merge_identity :
    (∀ w : WeatherReportData, mergeDataVal w none = w)
    ∧ (∀ w : WeatherReportData, mergeData w [] = w)
    ∧ (∀ (w : WeatherReportData) (src : List (String × JSVal)),
        (∀ p ∈ src, p.2 = JSVal.nullv) → mergeData w src = w)
    ∧ (∀ (w : WeatherReportData) (e : String),
        mergeData w [("error", JSVal.str e)] = w) := by
  refine ⟨fun w => rfl, fun w => rfl, ?_, ?_⟩
  · intro w src h
    exact mergeData_skip_all w src fun p hp => Or.inr (h p hp)
  · intro w e
    apply mergeData_skip_all
    intro p hp
    simp only [List.mem_singleton] at hp
    rw [hp]
    exact Or.inl rfl

/-- Witness for C7: merging a concrete all-null record into the fresh
snapshot leaves it unchanged. -/
theorem c7_witness :
    mergeData emptyReport
      [("wind_speed", JSVal.nullv), ("temperature", JSVal.nullv)]
      = emptyReport :=
  c7_absent_merge_identity.2.2.1 emptyReport
    [("wind_speed", JSVal.nullv), ("temperature", JSVal.nullv)] (by decide)

/-- C10: mergeData ignores every source key that is not one of the sixteen
declared fields; in particular the provider-specific keys error, sunrise,
sunset, observationTime_raw and wind_direction_text are not declared, so
records carrying them never alter the fused snapshot beyond the declared
fields (the fields of the snapshot are, structurally, exactly the sixteen of
the class). -/
theorem c10_undeclared_keys_ignored :
    (∀ (w : WeatherReportData) (src : List (String × JSVal)),
        (∀ p ∈ src, parseKey p.1 = none) → mergeData w src = w)
    ∧ parseKey "error" = none
    ∧ parseKey "sunrise" = none
    ∧ parseKey "sunset" = none
    ∧ parseKey "observationTime_raw" = none
    ∧ parseKey "wind_direction_text" = none := by
  refine ⟨?_, by decide, by decide, by decide, by decide, by decide⟩
  intro w src h
  exact mergeData_skip_all w src fun p hp => Or.inl (h p hp)

/-- Witness for C10: a record holding only undeclared provider-specific
keys merges as the identity. -/
theorem c10_witness :
    mergeData emptyReport
      [("sunrise", JSVal.str "08:03"), ("sunset", JSVal.str "19:21"),
       ("error", JSVal.str "Failed to retrieve external data"),
       ("observationTime_raw", JSVal.str "2025-10-11T12:00:00"),
       ("wind_direction_text", JSVal.str "NNE")]
      = emptyReport :=
  c10_undeclared_keys_ignored.1 emptyReport _ (by decide)

/-- C3: on each report generation, an observationTime different from the
last broadcast time advances the identifier index by exactly one modulo 26
and records the new time; an equal observationTime keeps the state and the
current identifier; two successive generations with the same
observationTime produce the same identifier; and from index 25 (ZULU) a
change wraps to ALPHA. -/
theorem c3_identifier_rotation :
    ∀ (s : AtisState) (obs : Option String),
      (obs ≠ s.lastBroadcastTime →
        (formatReportIdentifier s obs).1.currentIdentifierIndex
            = (s.currentIdentifierIndex + 1) % 26
        ∧ (formatReportIdentifier s obs).1.lastBroadcastTime = obs
        ∧ (formatReportIdentifier s obs).2
            = ATIS_IDENTIFIERS.getD ((s.currentIdentifierIndex + 1) % 26) "")
      ∧ (obs = s.lastBroadcastTime →
          formatReportIdentifier s obs
            = (s, ATIS_IDENTIFIERS.getD s.currentIdentifierIndex ""))
      ∧ (formatReportIdentifier (formatReportIdentifier s obs).1 obs).2
          = (formatReportIdentifier s obs).2
      ∧ (s.currentIdentifierIndex = 25 → obs ≠ s.lastBroadcastTime →
          (formatReportIdentifier s obs).2 = "ALPHA")
      ∧ ATIS_IDENTIFIERS.getD 25 "" = "ZULU" := by
  intro s obs
  by_cases h : obs = s.lastBroadcastTime
  · refine ⟨fun hne => absurd h hne, fun _ => by simp [formatReportIdentifier, h],
      ?_, fun _ hne => absurd h hne, by decide⟩
    simp [formatReportIdentifier, h]
  · refine ⟨fun _ => by simp [formatReportIdentifier, h], fun he => absurd he h,
      ?_, ?_, by decide⟩
    · simp [formatReportIdentifier, h]
    · intro h25 _
      simp [formatReportIdentifier, h, h25]
      decide

/-- Witness for C3: from the initial state (index 25, no recorded time),
the first generation with a fresh observation time broadcasts ALPHA. -/
theorem c3_witness :
    (formatReportIdentifier initialAtisState (some "12:00 Z")).2 = "ALPHA" :=
  (c3_identifier_rotation initialAtisState (some "12:00 Z")).2.2.2.1 rfl
    (by decide)

/-- C9: each of the three layer altitudes of estimateCloudAltitude equals
the spec formula max(0, (qnh − referencePressure) · 27) rounded to the
nearest 100 ft, at reference pressures 800, 600 and 400 hPa, and in
particular qnh 1013 gives 5800 ft against the 800 hPa layer. -/
theorem c9_cloud_altitude :
    (∀ qnh : ℚ, estimateCloudAltitude qnh =
        (specAltitude qnh 800, specAltitude qnh 600, specAltitude qnh 400))
    ∧ (estimateCloudAltitude 1013).1 = 5800 := by
  constructor
  · intro qnh
    have comp : ∀ p : ℚ,
        (if qnh ≤ p then (0 : ℤ) else jsRound ((qnh - p) * 27 / 100) * 100)
          = specAltitude qnh p := by
      intro p
      by_cases h : qnh ≤ p
      · have hnp : (qnh - p) * 27 ≤ 0 :=
          mul_nonpos_of_nonpos_of_nonneg (by linarith) (by norm_num)
        have hmax : max 0 ((qnh - p) * 27) = 0 := max_eq_left hnp
        simp only [specAltitude, hmax, h, if_true]
        norm_num [jsRound]
      · have hpos : (0 : ℚ) ≤ (qnh - p) * 27 := by
          have hlt : p < qnh := lt_of_not_le h
          have h1 : (0 : ℚ) ≤ qnh - p := by linarith
          exact mul_nonneg h1 (by norm_num)
        have hmax : max 0 ((qnh - p) * 27) = (qnh - p) * 27 := max_eq_right hpos
        simp [specAltitude, hmax, h]
    exact Prod.ext (comp 800) (Prod.ext (comp 600) (comp 400))
  · norm_num [estimateCloudAltitude, jsRound]

lemma jsRound_intCast (d : ℤ) : jsRound (d : ℚ) = d := by
  rw [jsRound, Int.floor_int_add]
  norm_num

set_option maxRecDepth 10000 in
/-- C4: getVRBWind reports no variability when either direction is null or
both round to the same whole degree; otherwise, for bearings in 0-360, the
pair is zero-padded to three digits and ordered with the lower bearing
first when the shortest arc does not cross the 0/360 boundary (absolute
difference at most 180) and the bearing nearer 360 first when it does; and
variability between 350 and 10 is reported as 350 then 010. -/
theorem c4_wind_variability :
    (∀ w : Option ℚ, getVRBWind none w = "" ∧ getVRBWind w none = "")
    ∧ (∀ a b : ℚ, jsRound a = jsRound b → getVRBWind (some a) (some b) = "")
    ∧ (∀ d1 d2 : ℤ, 0 ≤ d1 → d1 ≤ 360 → 0 ≤ d2 → d2 ≤ 360 → d1 ≠ d2 →
        (|d1 - d2| ≤ 180 →
          getVRBWind (some (d1 : ℚ)) (some (d2 : ℚ))
            = "VRB " ++ padStart3 (min d1 d2) ++ "/" ++ padStart3 (max d1 d2))
        ∧ (180 < |d1 - d2| →
          getVRBWind (some (d1 : ℚ)) (some (d2 : ℚ))
            = "VRB " ++ padStart3 (max d1 d2) ++ "/" ++ padStart3 (min d1 d2)))
    ∧ getVRBWind (some ((350 : ℤ) : ℚ)) (some ((10 : ℤ) : ℚ))
        = "VRB 350/010" := by
  have hpair : ∀ d1 d2 : ℤ, d1 ≠ d2 →
      getVRBWind (some (d1 : ℚ)) (some (d2 : ℚ)) =
        if |d1 - d2| = min |d1 - d2| (360 - |d1 - d2|) then
          "VRB " ++ padStart3 (min d1 d2) ++ "/" ++ padStart3 (max d1 d2)
        else
          "VRB " ++ padStart3 (max d1 d2) ++ "/" ++ padStart3 (min d1 d2) := by
    intro d1 d2 hne
    simp only [getVRBWind, jsRound_intCast, if_neg hne]
    by_cases hc : |d1 - d2| = min |d1 - d2| (360 - |d1 - d2|)
    · rw [if_pos hc, if_pos hc]
    · rw [if_neg hc, if_neg hc]
  refine ⟨?_, ?_, ?_, ?_⟩
  · intro w
    exact ⟨rfl, by cases w <;> rfl⟩
  · intro a b h
    simp only [getVRBWind, if_pos h]
  · intro d1 d2 h1 h2 h3 h4 hne
    constructor
    · intro harc
      rw [hpair d1 d2 hne, if_pos]
      exact (min_eq_left (by linarith)).symm
    · intro harc
      rw [hpair d1 d2 hne, if_neg]
      have hmin : min |d1 - d2| (360 - |d1 - d2|) = 360 - |d1 - d2| :=
        min_eq_right (by linarith)
      rw [hmin]
      intro hc
      have habs : 0 ≤ |d1 - d2| := abs_nonneg _
      linarith
  · have h := hpair 350 10 (by decide)
    rw [h, if_neg (by decide)]
    decide

/-- Witness for C4: the crossing-boundary branch applied to the concrete
bearings 350 and 10 orders the near-360 bearing first. -/
theorem c4_witness :
    getVRBWind (some ((350 : ℤ) : ℚ)) (some ((10 : ℤ) : ℚ))
      = "VRB " ++ padStart3 (max 350 10) ++ "/" ++ padStart3 (min 350 10) :=
  ((c4_wind_variability.2.2.1 350 10 (by decide) (by decide) (by decide)
      (by decide) (by decide)).2 (by decide))

set_option maxRecDepth 100000 in
/-- C6: for every wind bearing from 0 to 360, determineActiveRunway picks
the runway heading (010 for runway 01, 190 for runway 19) with the smaller
angular difference to the wind, picking runway 01 on ties; bearing 100 is
a tie and selects runway 01. -/
theorem c6_runway_selection :
    (∀ n : ℕ, n ≤ 360 →
      (getAngularDifference n 10 < getAngularDifference n 190 →
          determineActiveRunway n = "01")
      ∧ (getAngularDifference n 190 < getAngularDifference n 10 →
          determineActiveRunway n = "19")
      ∧ (getAngularDifference n 10 = getAngularDifference n 190 →
          determineActiveRunway n = "01"))
    ∧ determineActiveRunway 100 = "01" := by
  constructor
  · decide
  · decide

/-- Witness for C6: the tie at wind bearing 100 resolves to runway 01. -/
theorem c6_witness : determineActiveRunway ((100 : ℕ) : ℤ) = "01" :=
  (c6_runway_selection.1 100 (by decide)).2.2 (by decide)

/-- C8 counterexample: compass text not in the recognized table (here the
letter X, which the wind pattern accepts) yields a present numeric wind
direction of 0 degrees, not an absent direction as the claim states. -/
theorem c8_counterexample :
    (parseWindSection (some (10, "X"))).wind_direction = some 0
    ∧ (parseWindSection (some (10, "X"))).wind_direction ≠ none := by
  constructor
  · decide
  · decide

/-- C8 (amended): a failed wind-pattern match leaves all three wind fields
absent; a successful match always stores a present numeric direction,
namely the table value of the cleaned compass text, with unknown text
defaulting to 0 degrees (the Variable/Calm value) rather than to an absent
field. -/
theorem c8_normalizer_absence :
    parseWindSection none
        = ⟨none, none, none⟩
    ∧ (∀ (sp : ℚ) (t : String),
        (parseWindSection (some (sp, t))).wind_direction
          = some (directionToDegrees (jsToUpper t)))
    ∧ (∀ t : String,
        directionTable.find?
            (fun p => p.1 == String.mk (removeFirstDot ((jsTrim (jsToUpper t)).data)))
          = none →
        directionToDegrees t = 0) := by
  refine ⟨rfl, fun sp t => rfl, ?_⟩
  intro t h
  simp only [directionToDegrees, h]

/-- Witness for C8: the unrecognized compass text X is not in the table and
maps to 0 degrees. -/
theorem c8_witness : directionToDegrees "X" = 0 :=
  c8_normalizer_absence.2.2 "X" (by decide)

/-- C2: evaluated on a UTC-clock host for Europe/Madrid in 2025, the code
returns the local wall-clock time PLUS the zone offset (resolved at the
wrong instant) instead of the equivalent UTC time.  For local 2025-11-20
15:30 (minute 466050) it returns 16:30Z where the correct UTC time is
14:30Z; and for the two local times 01:59 and 03:01 around the spring
transition of 2025-03-30 (minutes 126839 and 126901) it returns 03:59Z and
05:01Z — 62 minutes apart, no one-hour relative offset change — where the
correct UTC times are 00:59Z and 01:01Z. -/
theorem c2_time_conversion_bug :
    getATISTimeFromLocalTime2025 466050 = "16:30Z"
    ∧ hhmmZ (specLocalToUTC2025 466050) = "14:30Z"
    ∧ getATISTimeFromLocalTime2025 466050 ≠ hhmmZ (specLocalToUTC2025 466050)
    ∧ getATISTimeFromLocalTime2025 126839 = "03:59Z"
    ∧ getATISTimeFromLocalTime2025 126901 = "05:01Z"
    ∧ hhmmZ (specLocalToUTC2025 126839) = "00:59Z"
    ∧ hhmmZ (specLocalToUTC2025 126901) = "01:01Z" := by
  refine ⟨by decide, by decide, by decide, by decide, by decide, by decide,
    by decide⟩

lemma jsAtan2_mem (y x : ℝ) : -Real.pi < jsAtan2 y x ∧ jsAtan2 y x ≤ Real.pi := by
  have hpi : 0 < Real.pi := Real.pi_pos
  unfold jsAtan2
  split_ifs with h1 h2 h3 h4 h5
  · have ha1 := Real.arctan_lt_pi_div_two (y / x)
    have ha2 := Real.neg_pi_div_two_lt_arctan (y / x)
    constructor <;> linarith
  · have hq : y / x ≤ 0 := div_nonpos_of_nonneg_of_nonpos h3 h2.le
    have ha1 : Real.arctan (y / x) ≤ 0 := by
      have := Real.arctan_strictMono.monotone hq
      rwa [Real.arctan_zero] at this
    have ha2 := Real.neg_pi_div_two_lt_arctan (y / x)
    constructor <;> linarith
  · have hy : y < 0 := lt_of_not_le h3
    have hq : 0 < y / x := div_pos_of_neg_of_neg hy h2
    have ha1 : 0 < Real.arctan (y / x) := by
      have := Real.arctan_strictMono hq
      rwa [Real.arctan_zero] at this
    have ha2 := Real.arctan_lt_pi_div_two (y / x)
    constructor <;> linarith
  · constructor <;> linarith
  · constructor <;> linarith
  · constructor <;> linarith

lemma jsFmod_mem (x y : ℝ) (hx : 0 ≤ x) (hy : 0 < y) :
    0 ≤ jsFmod x y ∧ jsFmod x y < y := by
  have hq : 0 ≤ x / y := div_nonneg hx hy.le
  have key : jsFmod x y = y * Int.fract (x / y) := by
    rw [jsFmod, truncR, if_pos hq, Int.fract, mul_sub,
      mul_div_cancel₀ x hy.ne']
  constructor
  · rw [key]
    exact mul_nonneg hy.le (Int.fract_nonneg _)
  · rw [key]
    calc y * Int.fract (x / y) < y * 1 :=
          mul_lt_mul_of_pos_left (Int.fract_lt_one _) hy
      _ = y := mul_one y

/-- C5 counterexample: uvToWind at components u = 1, v = -20 (a from-
direction slightly above 357 degrees, which rounds up to 360) returns
bearing 360, so the returned bearing is not always in the half-open range
0 to 360 the claim states. -/
theorem c5_counterexample :
    (uvToWind 1 (-20)).2 = 360 ∧ ¬ ((uvToWind 1 (-20)).2 < 360) := by
  have hpi : 0 < Real.pi := Real.pi_pos
  have hpi3 : 3 < Real.pi := Real.pi_gt_three
  have ht0 : 0 < Real.arctan (1 / 20) := by
    have := Real.arctan_strictMono (show (0 : ℝ) < 1 / 20 by norm_num)
    rwa [Real.arctan_zero] at this
  have htpi2 := Real.arctan_lt_pi_div_two (1 / 20 : ℝ)
  have htlt : Real.arctan (1 / 20) < 1 / 20 := by
    have h1 := Real.lt_tan ht0 htpi2
    rwa [Real.tan_arctan] at h1
  have hatan : jsAtan2 1 (-20) = Real.pi - Real.arctan (1 / 20) := by
    rw [jsAtan2, if_neg (by norm_num), if_pos (by norm_num),
      if_pos (by norm_num), show (1 : ℝ) / (-20) = -(1 / 20) by norm_num,
      Real.arctan_neg]
    ring
  have hc0 : 0 < Real.arctan (1 / 20) * (180 / Real.pi) := by positivity
  have hc5 : Real.arctan (1 / 20) * (180 / Real.pi) < 5 := by
    have h1 : Real.arctan (1 / 20) * (180 / Real.pi)
        < (1 / 20) * (180 / Real.pi) :=
      mul_lt_mul_of_pos_right htlt (by positivity)
    have h2 : (1 / 20 : ℝ) * (180 / Real.pi) = 9 / Real.pi := by ring
    have h3 : (9 : ℝ) / Real.pi < 5 := by
      rw [div_lt_iff₀ hpi]
      linarith
    linarith [h2 ▸ h1]
  set c := Real.arctan (1 / 20) * (180 / Real.pi) with hcdef
  have hdeg0 : (Real.pi - Real.arctan (1 / 20)) * (180 / Real.pi)
      = 180 - c := by
    rw [hcdef]
    field_simp
    ring
  have hfm1 : jsFmod (180 - c + 360) 360 = 180 - c := by
    have hfl : ⌊(180 - c + 360) / 360⌋ = 1 := by
      have h1 : (1 : ℝ) ≤ (180 - c + 360) / 360 := by
        rw [le_div_iff₀ (by norm_num : (0 : ℝ) < 360)]
        linarith
      have h2 : (180 - c + 360) / 360 < 2 := by
        rw [div_lt_iff₀ (by norm_num : (0 : ℝ) < 360)]
        linarith
      refine Int.floor_eq_iff.mpr ⟨by exact_mod_cast h1, by push_cast; linarith⟩
    rw [jsFmod, truncR, if_pos, hfl]
    · push_cast
      ring
    · apply div_nonneg _ (by norm_num)
      linarith
  have hfm2 : jsFmod (180 - c + 180) 360 = 360 - c := by
    have hfl : ⌊(180 - c + 180) / 360⌋ = 0 := by
      have h1 : (0 : ℝ) ≤ (180 - c + 180) / 360 := by
        apply div_nonneg _ (by norm_num)
        linarith
      have h2 : (180 - c + 180) / 360 < 1 := by
        rw [div_lt_iff₀ (by norm_num : (0 : ℝ) < 360)]
        linarith
      refine Int.floor_eq_iff.mpr ⟨by exact_mod_cast h1, by push_cast; linarith⟩
    rw [jsFmod, truncR, if_pos, hfl]
    · push_cast
      ring
    · apply div_nonneg _ (by norm_num)
      linarith
  have hround : jsRoundR ((360 - c) / 10) = 36 := by
    rw [jsRoundR]
    refine Int.floor_eq_iff.mpr ⟨?_, ?_⟩
    · push_cast
      linarith
    · push_cast
      linarith
  have hval : (uvToWind 1 (-20)).2 = 360 := by
    simp only [uvToWind]
    rw [hatan, hdeg0, hfm1, hfm2, hround]
    norm_num
  exact ⟨hval, by rw [hval]; norm_num⟩

/-- C5 (amended): for all wind components, uvToWind returns a non-negative
speed and a from-bearing that is a multiple of 10 degrees in the closed
range 0 to 360 — the boundary value 360 itself is attainable (see the
counterexample), so the range is closed rather than half-open — and both
components zero give speed 0. -/
theorem c5_wind_bounds :
    (∀ u v : ℝ,
      0 ≤ (uvToWind u v).1
      ∧ 0 ≤ (uvToWind u v).2
      ∧ (uvToWind u v).2 ≤ 360
      ∧ (10 : ℤ) ∣ (uvToWind u v).2)
    ∧ (uvToWind 0 0).1 = 0 := by
  constructor
  · intro u v
    have hpi : 0 < Real.pi := Real.pi_pos
    obtain ⟨ha1, ha2⟩ := jsAtan2_mem u v
    have hdpos : 0 < 180 / Real.pi := by positivity
    have heq1 : Real.pi * (180 / Real.pi) = 180 := by field_simp
    have hd1 : jsAtan2 u v * (180 / Real.pi) ≤ 180 := by
      have := mul_le_mul_of_nonneg_right ha2 hdpos.le
      linarith
    have hd2 : -180 < jsAtan2 u v * (180 / Real.pi) := by
      have := mul_lt_mul_of_pos_right ha1 hdpos
      have heq2 : -Real.pi * (180 / Real.pi) = -180 := by
        field_simp
        ring
      linarith
    obtain ⟨hm1a, hm1b⟩ := jsFmod_mem (jsAtan2 u v * (180 / Real.pi) + 360) 360
      (by linarith) (by norm_num)
    obtain ⟨hm2a, hm2b⟩ := jsFmod_mem
      (jsFmod (jsAtan2 u v * (180 / Real.pi) + 360) 360 + 180) 360
      (by linarith) (by norm_num)
    have hr1 : 0 ≤ jsRoundR
        (jsFmod (jsFmod (jsAtan2 u v * (180 / Real.pi) + 360) 360 + 180) 360
          / 10) := by
      rw [jsRoundR]
      exact Int.floor_nonneg.mpr (by linarith)
    have hr2 : jsRoundR
        (jsFmod (jsFmod (jsAtan2 u v * (180 / Real.pi) + 360) 360 + 180) 360
          / 10) ≤ 36 := by
      rw [jsRoundR]
      have hle : jsFmod
          (jsFmod (jsAtan2 u v * (180 / Real.pi) + 360) 360 + 180) 360 / 10
            + 1/2 < 37 := by linarith
      have hfloor := Int.floor_le (jsFmod
        (jsFmod (jsAtan2 u v * (180 / Real.pi) + 360) 360 + 180) 360 / 10
          + 1/2)
      have hcast : (↑⌊jsFmod
          (jsFmod (jsAtan2 u v * (180 / Real.pi) + 360) 360 + 180) 360 / 10
            + 1/2⌋ : ℝ) < 37 := lt_of_le_of_lt hfloor hle
      have : ⌊jsFmod
          (jsFmod (jsAtan2 u v * (180 / Real.pi) + 360) 360 + 180) 360 / 10
            + 1/2⌋ < 37 := by exact_mod_cast hcast
      omega
    refine ⟨?_, ?_, ?_, ?_⟩
    · show 0 ≤ toFixed1 (Real.sqrt (u * u + v * v) * MPS_TO_KNOTS)
      rw [toFixed1]
      apply div_nonneg _ (by norm_num)
      have hs : 0 ≤ Real.sqrt (u * u + v * v) * MPS_TO_KNOTS :=
        mul_nonneg (Real.sqrt_nonneg _) (by norm_num [MPS_TO_KNOTS])
      have : (0 : ℤ) ≤ ⌊Real.sqrt (u * u + v * v) * MPS_TO_KNOTS * 10 + 1/2⌋ :=
        Int.floor_nonneg.mpr (by linarith)
      exact_mod_cast this
    · show 0 ≤ jsRoundR _ * 10
      exact mul_nonneg hr1 (by norm_num)
    · show jsRoundR _ * 10 ≤ 360
      omega
    · show (10 : ℤ) ∣ jsRoundR _ * 10
      exact dvd_mul_left 10 _
  · simp only [uvToWind]
    rw [show (0 : ℝ) * 0 + 0 * 0 = 0 by ring, Real.sqrt_zero, zero_mul,
      toFixed1, zero_mul, zero_add]
    have hhalf : ⌊(1/2 : ℝ)⌋ = 0 :=
      Int.floor_eq_iff.mpr ⟨by norm_num, by norm_num⟩
    rw [hhalf]
    norm_num

end AtisLerm
